import Mathlib

/-!
Shallow embedding of the pemios RV32 simulator core (pemios-core), covering the
register file, the reservation-cell protocol of main memory, the per-hart MMU
front-end with its set-associative caches, the instruction decoder with its
re-encoding templates, the M-extension division instructions, and the hart step
function.  Machine integers (u32, u64) are modelled as `Nat` with explicit
masking / `% 2 ^ 32` where overflow matters; signed views are `Int`.  Fallible
Rust code returns `Except`; `panic!`/`todo!()`/`unreachable!()` paths surface as
an explicit `Panic` error value.
-/

/-- Two to the thirty-second power, the modulus of u32 arithmetic. -/
def U32MOD : Nat := 4294967296

/-- Two to the sixty-fourth power, the modulus of u64 arithmetic. -/
def U64MOD : Nat := 18446744073709551616

/-- Interpret a u32 bit pattern as a signed 32-bit value (Rust `as i32`). -/
def toSigned32 (w : Nat) : Int :=
  if w < 2147483648 then (w : Int) else (w : Int) - (U32MOD : Int)

/-- Truncate an integer back to a u32 bit pattern (Rust `as u32` from i32/i64,
two's-complement wrap). -/
def u32ofInt (v : Int) : Nat :=
  (v % (U32MOD : Int)).toNat

/-- Sign extension of the low `bits` bits of a value (the decoder computes the
same value by an arithmetic shift of the field placed at the top of an i32). -/
def sext (bits v : Nat) : Int :=
  if v % 2 ^ bits < 2 ^ (bits - 1) then ((v % 2 ^ bits : Nat) : Int)
  else ((v % 2 ^ bits : Nat) : Int) - (2 ^ bits : Nat)

/-- The `memory::mapping::MemoryError` enum (mapping.rs); the AMO payloads are
collapsed to the offsets the claims need. -/
inductive MemoryError where
  | outOfBoundsAccess (offset : Nat)
  | loadMisaligned (offset alignment : Nat)
  | storeMisaligned (offset alignment : Nat)
  | sizeUnsupported (offset size : Nat)
  | blockOperationUnsupported
deriving DecidableEq

/-- The `hart::mmu::MmuError` enum (mmu.rs). `BusError` wraps a `MemoryError`
because `BusError` itself only wraps `MemoryError` (bus.rs). -/
inductive MmuError where
  | loadMisaligned (addr alignment : Nat)
  | storeMisaligned (addr alignment : Nat)
  | outOfBoundsAccess (addr : Nat)
  | busError (e : MemoryError)
deriving DecidableEq

/-- A Rust panic reached by the modelled code: `todo!()` / `unreachable!()`
sites, and the arithmetic panic of integer division by zero. -/
inductive Panic where
  | todoCode
  | divByZero
  | unreachableCode
deriving DecidableEq

/-- Errors that can surface out of a hart step: a propagated `MmuError` or a
panic. -/
inductive Fault where
  | mmu (e : MmuError)
  | panic (p : Panic)
deriving DecidableEq

/-! ## Register file (hart/register.rs)

`RegisterFile` is an array of 33 u32 slots; slot 32 is the graveyard.  `set`
routes the destination through a lookup table mapping x0 to the graveyard and
every other register to itself; `Index` reads the slot named by the register
directly. -/

/-- The register file: 33 u32 slots (`reg: [u32; 33]`), as a list. -/
structure RegisterFile where
  reg : List Nat
deriving DecidableEq

/-- `RegisterFile::new()`: all 33 slots zero. -/
def RegisterFile.new : RegisterFile := ⟨List.replicate 33 0⟩

/-- The compile-time LUT of `RegisterFile::set`: index 0 maps to the graveyard
slot 32, index i (1 ≤ i ≤ 31) maps to itself. -/
def regLut (rd : Fin 32) : Nat :=
  if rd.val = 0 then 32 else rd.val

/-- `RegisterFile::set(rd, val)`: store through the LUT slot. -/
def RegisterFile.set (rf : RegisterFile) (rd : Fin 32) (v : Nat) : RegisterFile :=
  ⟨rf.reg.set (regLut rd) v⟩

/-- `Index<Reg> for RegisterFile`: read the slot named by the index (0..=32,
where 32 is the graveyard used by the decoder's "ignore" register). -/
def RegisterFile.read (rf : RegisterFile) (i : Nat) : Nat :=
  rf.reg.getD i 0

/-- Apply a sequence of `set` calls in order. -/
def RegisterFile.applyAll (rf : RegisterFile) (ops : List (Fin 32 × Nat)) : RegisterFile :=
  ops.foldl (fun r p => r.set p.1 p.2) rf

/-! ## Reservation cells (hart/mmu.rs helpers)

The harts' reservation cells are `AtomicU32`s; the embedding gives every cell
an index into a global list `cells : List Nat` of current cell values.  The
sequential model is faithful to the source because the claims are about the
steps performed under the frame lock. -/

/-- The sentinel `0xffffffff` meaning "no reservation". -/
def reservationSentinel : Nat := 4294967295

/-- `addr_to_reservation_set` (mmu.rs): `addr >> 6`. -/
def addrToReservationSet (addr : Nat) : Nat := addr >>> 6

/-- `helper_check_reservation` (mmu.rs): compare-exchange the cell at `idx`
from `shouldBe` to the sentinel; 0 on success, 1 on failure. -/
def helperCheckReservation (cells : List Nat) (idx shouldBe : Nat) : Nat × List Nat :=
  if cells.getD idx 0 = shouldBe then (0, cells.set idx reservationSentinel)
  else (1, cells)

/-- `helper_invalidate_reservations` (mmu.rs): compare-exchange every
registered cell from `shouldBe` to the sentinel. -/
def helperInvalidateReservations (cells : List Nat) (regs : List Nat) (shouldBe : Nat) :
    List Nat :=
  regs.foldl
    (fun cs r => if cs.getD r 0 = shouldBe then cs.set r reservationSentinel else cs)
    cells

/-! ## Main memory (memory/main.rs)

Frames are 1024-word arrays, modelled as functions from word index to value.
`reservations` holds the registry of reservation-cell indices. -/

/-- `memory::main::Main`: a vector of frames plus the reservation registry
(cell indices into the global cell list). -/
structure MainSt where
  frames : List (Nat → Nat)
  reservations : List Nat

/-- `Main::new(base_frame, frame_count)`: zeroed frames, empty registry. -/
def MainSt.new (frameCount : Nat) : MainSt :=
  ⟨List.replicate frameCount (fun _ => 0), []⟩

/-- `Main::check_offset::<W>`: alignment and bounds check, returning the frame
number and the in-frame index.  The source reports misalignment as
`StoreMisaligned` even on loads. -/
def checkOffset (W : Nat) (st : MainSt) (offset : Nat) : Except MemoryError (Nat × Nat) :=
  if offset % W ≠ 0 then .error (.storeMisaligned offset W)
  else
    let frameNumber := offset >>> 12
    let index := (offset &&& 0xfff) >>> (W / 2)
    if st.frames.length ≤ frameNumber then .error (.outOfBoundsAccess offset)
    else .ok (frameNumber, index)

/-- Write one word into a frame of `st`. -/
def MainSt.setWord (st : MainSt) (frameNumber index v : Nat) : MainSt :=
  { st with
    frames := st.frames.set frameNumber
      (fun i => if i = index then v else (st.frames.getD frameNumber (fun _ => 0)) i) }

/-- Read the aligned word containing byte offset `offset` (used by theorems to
observe memory). -/
def MainSt.wordAt (st : MainSt) (offset : Nat) : Nat :=
  (st.frames.getD (offset >>> 12) (fun _ => 0)) ((offset &&& 0xfff) >>> 2)

/-- `Main::store_conditional(offset, src, reservation, should_be)` (main.rs):
check the offset, compare-exchange the caller's reservation cell against the
sentinel, and — as the source is written — perform the store and invalidate
matching reservations only when that compare-exchange FAILED (`success == 1`),
returning the helper's result either way. -/
def mainStoreConditional (st : MainSt) (cells : List Nat)
    (offset src rIdx shouldBe : Nat) :
    Except MemoryError (Nat × MainSt × List Nat) := do
  let (_pfn, b) ← checkOffset 4 st offset
  let (success, cells1) := helperCheckReservation cells rIdx shouldBe
  if success = 1 then
    let st' := st.setWord _pfn b src
    let cells2 := helperInvalidateReservations cells1 st.reservations shouldBe
    .ok (success, st', cells2)
  else
    .ok (success, st, cells1)

/-! ## Registers and instructions (hart/instruction/{types,decode}.rs)

The decoder's `Reg` has the 32 architectural registers plus the `Ignore`
sentinel that `Decoder::rd` substitutes for x0. -/

/-- The decoder-side register identifier: x0..x31 plus `Ignore`. -/
inductive Reg where
  | x (n : Fin 32)
  | ignore
deriving DecidableEq

/-- `Reg::from(u32)` on a 5-bit field (the callers mask with 0x1f). -/
def regOfBits (n : Nat) : Reg := .x ⟨n % 32, Nat.mod_lt _ (by decide)⟩

/-- The slot index used by `Index<Reg> for RegisterFile` (`Reg as usize`);
`Ignore` shares the graveyard slot 32. -/
def Reg.slot : Reg → Nat
  | .x n => n.val
  | .ignore => 32

/-- `OpCode` (instruction/types.rs). -/
inductive OpCode where
  | load | miscMem | opImm | auipc | store | amo | op | lui | branch
  | jalr | jal | system | invalid
deriving DecidableEq

/-- `OpCode::from(u32)` (instruction/types.rs). -/
def opCodeOfNat (op : Nat) : OpCode :=
  if op = 0b0000011 then .load
  else if op = 0b0001111 then .miscMem
  else if op = 0b0010011 then .opImm
  else if op = 0b0010111 then .auipc
  else if op = 0b0100011 then .store
  else if op = 0b0101111 then .amo
  else if op = 0b0110011 then .op
  else if op = 0b0110111 then .lui
  else if op = 0b1100011 then .branch
  else if op = 0b1100111 then .jalr
  else if op = 0b1101111 then .jal
  else if op = 0b1110011 then .system
  else .invalid

/-- `FenceMode` (instruction/types.rs). -/
inductive FenceMode where
  | modeNone | modeTso | modeOther
deriving DecidableEq

/-- The decoded `Instruction` enum.  Its declaration file is not part of the
snapshot; the variants and their fields are transcribed from every
construction site in decode.rs and every match arm in step.rs.  Immediates
carry the i32 value computed by the decoder's `imm_*` field extractors. -/
inductive Instr where
  | lui (rd : Reg) (imm : Int)
  | auipc (rd : Reg) (imm : Int)
  | jal (rd : Reg) (imm : Int)
  | jalr (rd rs1 : Reg) (imm : Int)
  | beq (rs1 rs2 : Reg) (imm : Int)
  | bne (rs1 rs2 : Reg) (imm : Int)
  | blt (rs1 rs2 : Reg) (imm : Int)
  | bge (rs1 rs2 : Reg) (imm : Int)
  | bltu (rs1 rs2 : Reg) (imm : Int)
  | bgeu (rs1 rs2 : Reg) (imm : Int)
  | lb (rd rs1 : Reg) (imm : Int)
  | lh (rd rs1 : Reg) (imm : Int)
  | lw (rd rs1 : Reg) (imm : Int)
  | lbu (rd rs1 : Reg) (imm : Int)
  | lhu (rd rs1 : Reg) (imm : Int)
  | sb (rs1 rs2 : Reg) (imm : Int)
  | sh (rs1 rs2 : Reg) (imm : Int)
  | sw (rs1 rs2 : Reg) (imm : Int)
  | addi (rd rs1 : Reg) (imm : Int)
  | slti (rd rs1 : Reg) (imm : Int)
  | sltiu (rd rs1 : Reg) (imm : Int)
  | xori (rd rs1 : Reg) (imm : Int)
  | ori (rd rs1 : Reg) (imm : Int)
  | andi (rd rs1 : Reg) (imm : Int)
  | slli (rd rs1 : Reg) (shamt : Nat)
  | srli (rd rs1 : Reg) (shamt : Nat)
  | srai (rd rs1 : Reg) (shamt : Nat)
  | add (rd rs1 rs2 : Reg)
  | sub (rd rs1 rs2 : Reg)
  | sll (rd rs1 rs2 : Reg)
  | slt (rd rs1 rs2 : Reg)
  | sltu (rd rs1 rs2 : Reg)
  | xor (rd rs1 rs2 : Reg)
  | srl (rd rs1 rs2 : Reg)
  | sra (rd rs1 rs2 : Reg)
  | or (rd rs1 rs2 : Reg)
  | and (rd rs1 rs2 : Reg)
  | fence (rd rs1 : Reg) (mode : FenceMode) (pred succ : Nat)
  | fencei (rd rs1 : Reg) (imm : Int)
  | ecall
  | ebreak
  | csrRw (rd rs1 : Reg) (csr : Nat)
  | csrRs (rd rs1 : Reg) (csr : Nat)
  | csrRc (rd rs1 : Reg) (csr : Nat)
  | csrRwi (rd : Reg) (uimm csr : Nat)
  | csrRsi (rd : Reg) (uimm csr : Nat)
  | csrRci (rd : Reg) (uimm csr : Nat)
  | mul (rd rs1 rs2 : Reg)
  | mulh (rd rs1 rs2 : Reg)
  | mulhsu (rd rs1 rs2 : Reg)
  | mulhu (rd rs1 rs2 : Reg)
  | div (rd rs1 rs2 : Reg)
  | divu (rd rs1 rs2 : Reg)
  | rem (rd rs1 rs2 : Reg)
  | remu (rd rs1 rs2 : Reg)
  | lrw (rd rs1 : Reg) (aq rl : Bool)
  | scw (rd rs1 rs2 : Reg) (aq rl : Bool)
  | amoSwapw (rd rs1 rs2 : Reg) (aq rl : Bool)
  | amoAddw (rd rs1 rs2 : Reg) (aq rl : Bool)
  | amoXorw (rd rs1 rs2 : Reg) (aq rl : Bool)
  | amoAndw (rd rs1 rs2 : Reg) (aq rl : Bool)
  | amoOrw (rd rs1 rs2 : Reg) (aq rl : Bool)
  | amoMinw (rd rs1 rs2 : Reg) (aq rl : Bool)
  | amoMaxw (rd rs1 rs2 : Reg) (aq rl : Bool)
  | amoMinuw (rd rs1 rs2 : Reg) (aq rl : Bool)
  | amoMaxuw (rd rs1 rs2 : Reg) (aq rl : Bool)
  | invalid (raw : Nat)

/-- Arithmetic right shift of a u32 bit pattern viewed as i32 (Rust
`as i32 >> k`): floor division of the signed value. -/
def i32asr (w k : Nat) : Int := Int.fdiv (toSigned32 w) (2 ^ k)

/-- `Decoder::rd`: field bits 7..=11, with x0 rewritten to `Ignore`. -/
def decRd (w : Nat) : Reg :=
  if (w >>> 7) &&& 0x1f = 0 then .ignore else regOfBits ((w >>> 7) &&& 0x1f)

/-- `Decoder::rs1`: field bits 15..=19. -/
def decRs1 (w : Nat) : Reg := regOfBits ((w >>> 15) &&& 0x1f)

/-- `Decoder::rs2`: field bits 20..=24. -/
def decRs2 (w : Nat) : Reg := regOfBits ((w >>> 20) &&& 0x1f)

/-- `Decoder::imm_i`: `raw as i32 >> 20`. -/
def immI (w : Nat) : Int := i32asr w 20

/-- `Decoder::imm_s`: `((raw & 0xfe000000) as i32 >> 20) | ((raw & 0xf80) >> 7)`
(the two parts occupy disjoint bit ranges, so bitwise-or is addition). -/
def immS (w : Nat) : Int :=
  i32asr (w &&& 0xfe000000) 20 + (((w &&& 0xf80) >>> 7 : Nat) : Int)

/-- `Decoder::imm_b`: the four B-format parts or'ed together (disjoint bit
ranges, so bitwise-or is addition). -/
def immB (w : Nat) : Int :=
  i32asr (w &&& 0x80000000) 19 + (((w &&& 0x80) <<< 4 : Nat) : Int)
    + (((w &&& 0x7e000000) >>> 20 : Nat) : Int) + (((w &&& 0xf00) >>> 7 : Nat) : Int)

/-- `Decoder::imm_j`: the four J-format parts or'ed together (disjoint bit
ranges, so bitwise-or is addition). -/
def immJ (w : Nat) : Int :=
  i32asr (w &&& 0x80000000) 11 + ((w &&& 0x000ff000 : Nat) : Int)
    + (((w &&& 0x00100000) >>> 9 : Nat) : Int) + (((w &&& 0x7fe00000) >>> 20 : Nat) : Int)

/-- `Decoder::imm_u`: `(raw & 0xfffff000) as i32`. -/
def immU (w : Nat) : Int := toSigned32 (w &&& 0xfffff000)

/-- The `Int21Trunc1` store/load round-trip (instruction/types.rs): storing
keeps the low three bytes of `val & 0xfffff000`; loading rebuilds them into
byte positions 1..3 and arithmetically shifts right by 11.  The hart's `jal`
arm observes the immediate only through this conversion chain. -/
def int21Via (v : Int) : Int :=
  i32asr (((u32ofInt v &&& 0xfffff000) &&& 0xffffff) <<< 8) 11

/-- `impl Decode for u32 { fn decode(&self) }` (instruction/decode.rs).  The
`OpCode::MiscMem` fence arm evaluates `decoder.mode()`, which is `todo!()`,
hence the `Panic.todoCode` outcome there; the dead default of the CSR funct3
match is `unreachable!()`. -/
def decode (w : Nat) : Except Panic Instr :=
  let raw := w
  let rd := decRd w
  let rs1 := decRs1 w
  let rs2 := decRs2 w
  let funct3 := (w >>> 12) &&& 7
  let funct7 := (w >>> 25) &&& 0x7f
  let funct5 := (w >>> 27) &&& 0x1f
  let funct12 := (w >>> 20) &&& 0xfff
  let shamt := (w >>> 15) &&& 0x1f
  let csr := w >>> 20
  let uimm := (w >>> 15) &&& 0x1f
  let aq := w &&& (1 <<< 26) ≠ 0
  let rl := w &&& (1 <<< 25) ≠ 0
  match opCodeOfNat (w &&& 0x7f) with
  | .load =>
    let imm := immI w
    if funct3 = 0 then .ok (.lb rd rs1 imm)
    else if funct3 = 1 then .ok (.lh rd rs1 imm)
    else if funct3 = 2 then .ok (.lw rd rs1 imm)
    else if funct3 = 4 then .ok (.lbu rd rs1 imm)
    else if funct3 = 5 then .ok (.lhu rd rs1 imm)
    else .ok (.invalid raw)
  | .miscMem =>
    if funct3 = 0 then .error .todoCode
    else if funct3 = 1 then .ok (.fencei .ignore .ignore 0)
    else .ok (.invalid raw)
  | .opImm =>
    let imm := immI w
    if funct3 = 0b000 then .ok (.addi rd rs1 imm)
    else if funct3 = 0b010 then .ok (.slti rd rs1 imm)
    else if funct3 = 0b011 then .ok (.sltiu rd rs1 imm)
    else if funct3 = 0b100 then .ok (.xori rd rs1 imm)
    else if funct3 = 0b110 then .ok (.ori rd rs1 imm)
    else if funct3 = 0b111 then .ok (.andi rd rs1 imm)
    else if funct3 = 0b001 then .ok (.slli rd rs1 shamt)
    else if funct3 = 0b101 ∧ funct7 = 0 then .ok (.srli rd rs1 shamt)
    else if funct3 = 0b101 ∧ funct7 = 0x20 then .ok (.srai rd rs1 shamt)
    else .ok (.invalid raw)
  | .auipc => .ok (.auipc rd (immU w))
  | .store =>
    let imm := immS w
    if funct3 = 0 then .ok (.sb rs1 rs2 imm)
    else if funct3 = 1 then .ok (.sh rs1 rs2 imm)
    else if funct3 = 2 then .ok (.sw rs1 rs2 imm)
    else .ok (.invalid raw)
  | .amo =>
    if funct5 = 0b00010 then .ok (.lrw rd rs1 aq rl)
    else if funct5 = 0b00011 then .ok (.scw rd rs1 rs2 aq rl)
    else if funct5 = 0b00001 then .ok (.amoSwapw rd rs1 rs2 aq rl)
    else if funct5 = 0b00000 then .ok (.amoAddw rd rs1 rs2 aq rl)
    else if funct5 = 0b00100 then .ok (.amoXorw rd rs1 rs2 aq rl)
    else if funct5 = 0b01100 then .ok (.amoAndw rd rs1 rs2 aq rl)
    else if funct5 = 0b01000 then .ok (.amoOrw rd rs1 rs2 aq rl)
    else if funct5 = 0b10000 then .ok (.amoMinw rd rs1 rs2 aq rl)
    else if funct5 = 0b10100 then .ok (.amoMaxw rd rs1 rs2 aq rl)
    else if funct5 = 0b11000 then .ok (.amoMinuw rd rs1 rs2 aq rl)
    else if funct5 = 0b11100 then .ok (.amoMaxuw rd rs1 rs2 aq rl)
    else .ok (.invalid raw)
  | .op =>
    if funct3 = 0 ∧ funct7 = 0 then .ok (.add rd rs1 rs2)
    else if funct3 = 0 ∧ funct7 = 0x20 then .ok (.sub rd rs1 rs2)
    else if funct3 = 1 then .ok (.sll rd rs1 rs2)
    else if funct3 = 2 then .ok (.slt rd rs1 rs2)
    else if funct3 = 3 then .ok (.sltu rd rs1 rs2)
    else if funct3 = 4 then .ok (.xor rd rs1 rs2)
    else if funct3 = 5 ∧ funct7 = 0 then .ok (.srl rd rs1 rs2)
    else if funct3 = 5 ∧ funct7 = 0x20 then .ok (.srl rd rs1 rs2)
    else if funct3 = 6 then .ok (.or rd rs1 rs2)
    else if funct3 = 7 then .ok (.and rd rs1 rs2)
    else .ok (.invalid raw)
  | .lui => .ok (.lui rd (immU w))
  | .branch =>
    let imm := immB w
    if funct3 = 0 then .ok (.bne rs1 rs2 imm)
    else if funct3 = 1 then .ok (.beq rs1 rs2 imm)
    else if funct3 = 4 then .ok (.blt rs1 rs2 imm)
    else if funct3 = 5 then .ok (.bge rs1 rs2 imm)
    else if funct3 = 6 then .ok (.bltu rs1 rs2 imm)
    else if funct3 = 7 then .ok (.bgeu rs1 rs2 imm)
    else .ok (.invalid raw)
  | .jalr => .ok (.jalr rd rs1 (immI w))
  | .jal => .ok (.jal rd (immJ w))
  | .system =>
    if funct3 = 0 then
      if funct12 = 0 then .ok .ecall
      else if funct12 = 1 then .ok .ebreak
      else .ok (.invalid raw)
    else if funct3 ≠ 4 then
      if funct3 = 1 then .ok (.csrRw rd rs1 csr)
      else if funct3 = 2 then .ok (.csrRs rd rs1 csr)
      else if funct3 = 3 then .ok (.csrRc rd rs1 csr)
      else if funct3 = 5 then .ok (.csrRwi rd uimm csr)
      else if funct3 = 6 then .ok (.csrRsi rd uimm csr)
      else if funct3 = 7 then .ok (.csrRci rd uimm csr)
      else .error .unreachableCode
    else .ok (.invalid raw)
  | _ => .ok (.invalid raw)

/-! ## Re-encoding templates (hart/instruction/instruction_type.rs) -/

/-- `InstructionKind::template`: the canonical bit pattern of each variant,
transcribed from the binary literals in instruction_type.rs. -/
def template : Instr → Nat
  | .lui _ _ => 0x00000037
  | .auipc _ _ => 0x00000017
  | .jal _ _ => 0x0000006f
  | .jalr _ _ _ => 0x00000067
  | .beq _ _ _ => 0x00000063
  | .bne _ _ _ => 0x00001063
  | .blt _ _ _ => 0x00004063
  | .bge _ _ _ => 0x00005063
  | .bltu _ _ _ => 0x00006063
  | .bgeu _ _ _ => 0x00007063
  | .lb _ _ _ => 0x00000003
  | .lh _ _ _ => 0x00001003
  | .lw _ _ _ => 0x00002003
  | .lbu _ _ _ => 0x00004003
  | .lhu _ _ _ => 0x00005003
  | .sb _ _ _ => 0x00000023
  | .sh _ _ _ => 0x00001023
  | .sw _ _ _ => 0x00002023
  | .addi _ _ _ => 0x00000013
  | .slti _ _ _ => 0x00002013
  | .sltiu _ _ _ => 0x00003013
  | .xori _ _ _ => 0x00004013
  | .ori _ _ _ => 0x00006013
  | .andi _ _ _ => 0x00007013
  | .slli _ _ _ => 0x00001013
  | .srli _ _ _ => 0x00005013
  | .srai _ _ _ => 0x40005013
  | .add _ _ _ => 0x00000033
  | .sub _ _ _ => 0x40000033
  | .sll _ _ _ => 0x00001033
  | .slt _ _ _ => 0x00002033
  | .sltu _ _ _ => 0x00003033
  | .xor _ _ _ => 0x00004033
  | .srl _ _ _ => 0x00005033
  | .sra _ _ _ => 0x40005033
  | .or _ _ _ => 0x00006033
  | .and _ _ _ => 0x00007033
  | .fence _ _ _ _ _ => 0x0000000f
  | .ecall => 0x00000073
  | .ebreak => 0x00100073
  | .fencei _ _ _ => 0x0000100f
  | .csrRw _ _ _ => 0x00001073
  | .csrRs _ _ _ => 0x00002073
  | .csrRc _ _ _ => 0x00003073
  | .csrRwi _ _ _ => 0x00005073
  | .csrRsi _ _ _ => 0x00006073
  | .csrRci _ _ _ => 0x00007073
  | .mul _ _ _ => 0x02000033
  | .mulh _ _ _ => 0x02001033
  | .mulhsu _ _ _ => 0x02002033
  | .mulhu _ _ _ => 0x02003033
  | .div _ _ _ => 0x02004033
  | .divu _ _ _ => 0x02005033
  | .rem _ _ _ => 0x02006033
  | .remu _ _ _ => 0x02007033
  | .lrw _ _ _ _ => 0x1000202f
  | .scw _ _ _ _ _ => 0x1800202f
  | .amoSwapw _ _ _ _ _ => 0x0800202f
  | .amoAddw _ _ _ _ _ => 0x0000202f
  | .amoXorw _ _ _ _ _ => 0x2000202f
  | .amoAndw _ _ _ _ _ => 0x6000202f
  | .amoOrw _ _ _ _ _ => 0x4000202f
  | .amoMinw _ _ _ _ _ => 0x8000202f
  | .amoMaxw _ _ _ _ _ => 0xa000202f
  | .amoMinuw _ _ _ _ _ => 0xc000202f
  | .amoMaxuw _ _ _ _ _ => 0xe000202f
  | .invalid _ => 0

/-- Register field bits: `Ignore` re-encodes as x0. -/
def regBits : Reg → Nat
  | .x n => n.val
  | .ignore => 0

/-- I-format field injection into a template. -/
def encI (t : Nat) (rd rs1 : Reg) (imm : Int) : Nat :=
  t ||| (regBits rd <<< 7) ||| (regBits rs1 <<< 15) ||| ((u32ofInt imm &&& 0xfff) <<< 20)

/-- S-format field injection into a template. -/
def encS (t : Nat) (rs1 rs2 : Reg) (imm : Int) : Nat :=
  t ||| (regBits rs1 <<< 15) ||| (regBits rs2 <<< 20)
    ||| (((u32ofInt imm >>> 5) &&& 0x7f) <<< 25) ||| ((u32ofInt imm &&& 0x1f) <<< 7)

/-- B-format field injection into a template. -/
def encB (t : Nat) (rs1 rs2 : Reg) (imm : Int) : Nat :=
  t ||| (regBits rs1 <<< 15) ||| (regBits rs2 <<< 20)
    ||| (((u32ofInt imm >>> 12) &&& 1) <<< 31) ||| (((u32ofInt imm >>> 5) &&& 0x3f) <<< 25)
    ||| (((u32ofInt imm >>> 1) &&& 0xf) <<< 8) ||| (((u32ofInt imm >>> 11) &&& 1) <<< 7)

/-- U-format field injection into a template. -/
def encU (t : Nat) (rd : Reg) (imm : Int) : Nat :=
  t ||| (regBits rd <<< 7) ||| (u32ofInt imm &&& 0xfffff000)

/-- J-format field injection into a template. -/
def encJ (t : Nat) (rd : Reg) (imm : Int) : Nat :=
  t ||| (regBits rd <<< 7)
    ||| (((u32ofInt imm >>> 20) &&& 1) <<< 31) ||| (((u32ofInt imm >>> 1) &&& 0x3ff) <<< 21)
    ||| (((u32ofInt imm >>> 11) &&& 1) <<< 20) ||| (((u32ofInt imm >>> 12) &&& 0xff) <<< 12)

/-- R-format field injection into a template. -/
def encR (t : Nat) (rd rs1 rs2 : Reg) : Nat :=
  t ||| (regBits rd <<< 7) ||| (regBits rs1 <<< 15) ||| (regBits rs2 <<< 20)

/-- Shift-immediate field injection (shamt in bits 20..=24). -/
def encShift (t : Nat) (rd rs1 : Reg) (shamt : Nat) : Nat :=
  t ||| (regBits rd <<< 7) ||| (regBits rs1 <<< 15) ||| ((shamt &&& 0x1f) <<< 20)

/-- CSR field injection. -/
def encCsr (t : Nat) (rd rs1 : Reg) (csr : Nat) : Nat :=
  t ||| (regBits rd <<< 7) ||| (regBits rs1 <<< 15) ||| ((csr &&& 0xfff) <<< 20)

/-- CSR-immediate field injection (uimm in the rs1 slot). -/
def encCsrI (t : Nat) (rd : Reg) (uimm csr : Nat) : Nat :=
  t ||| (regBits rd <<< 7) ||| ((uimm &&& 0x1f) <<< 15) ||| ((csr &&& 0xfff) <<< 20)

/-- AMO field injection (aq bit 26, rl bit 25). -/
def encAmo (t : Nat) (rd rs1 rs2 : Reg) (aq rl : Bool) : Nat :=
  t ||| (regBits rd <<< 7) ||| (regBits rs1 <<< 15) ||| (regBits rs2 <<< 20)
    ||| ((if aq then 1 else 0) <<< 26) ||| ((if rl then 1 else 0) <<< 25)

/-- Fence-mode bits for re-encoding. -/
def fenceModeBits : FenceMode → Nat
  | .modeNone => 0
  | .modeTso => 8
  | .modeOther => 0

/-- Modelled from the spec: the source declares the per-variant templates
(`InstructionKind::template`) but contains no function combining a template
with a variant's fields; the spec ("Re-encoding", section 4.1, and the decoder
round-trip property of section 8) specifies that combination as injecting the
variant's fields into its template following the standard RISC-V I/S/B/U/J
field recipes.  This definition is that combination. -/
def encode : Instr → Nat
  | .lui rd imm => encU 0x00000037 rd imm
  | .auipc rd imm => encU 0x00000017 rd imm
  | .jal rd imm => encJ 0x0000006f rd imm
  | .jalr rd rs1 imm => encI 0x00000067 rd rs1 imm
  | .beq rs1 rs2 imm => encB 0x00000063 rs1 rs2 imm
  | .bne rs1 rs2 imm => encB 0x00001063 rs1 rs2 imm
  | .blt rs1 rs2 imm => encB 0x00004063 rs1 rs2 imm
  | .bge rs1 rs2 imm => encB 0x00005063 rs1 rs2 imm
  | .bltu rs1 rs2 imm => encB 0x00006063 rs1 rs2 imm
  | .bgeu rs1 rs2 imm => encB 0x00007063 rs1 rs2 imm
  | .lb rd rs1 imm => encI 0x00000003 rd rs1 imm
  | .lh rd rs1 imm => encI 0x00001003 rd rs1 imm
  | .lw rd rs1 imm => encI 0x00002003 rd rs1 imm
  | .lbu rd rs1 imm => encI 0x00004003 rd rs1 imm
  | .lhu rd rs1 imm => encI 0x00005003 rd rs1 imm
  | .sb rs1 rs2 imm => encS 0x00000023 rs1 rs2 imm
  | .sh rs1 rs2 imm => encS 0x00001023 rs1 rs2 imm
  | .sw rs1 rs2 imm => encS 0x00002023 rs1 rs2 imm
  | .addi rd rs1 imm => encI 0x00000013 rd rs1 imm
  | .slti rd rs1 imm => encI 0x00002013 rd rs1 imm
  | .sltiu rd rs1 imm => encI 0x00003013 rd rs1 imm
  | .xori rd rs1 imm => encI 0x00004013 rd rs1 imm
  | .ori rd rs1 imm => encI 0x00006013 rd rs1 imm
  | .andi rd rs1 imm => encI 0x00007013 rd rs1 imm
  | .slli rd rs1 shamt => encShift 0x00001013 rd rs1 shamt
  | .srli rd rs1 shamt => encShift 0x00005013 rd rs1 shamt
  | .srai rd rs1 shamt => encShift 0x40005013 rd rs1 shamt
  | .add rd rs1 rs2 => encR 0x00000033 rd rs1 rs2
  | .sub rd rs1 rs2 => encR 0x40000033 rd rs1 rs2
  | .sll rd rs1 rs2 => encR 0x00001033 rd rs1 rs2
  | .slt rd rs1 rs2 => encR 0x00002033 rd rs1 rs2
  | .sltu rd rs1 rs2 => encR 0x00003033 rd rs1 rs2
  | .xor rd rs1 rs2 => encR 0x00004033 rd rs1 rs2
  | .srl rd rs1 rs2 => encR 0x00005033 rd rs1 rs2
  | .sra rd rs1 rs2 => encR 0x40005033 rd rs1 rs2
  | .or rd rs1 rs2 => encR 0x00006033 rd rs1 rs2
  | .and rd rs1 rs2 => encR 0x00007033 rd rs1 rs2
  | .fence rd rs1 mode predSet succSet =>
      0x0000000f ||| (regBits rd <<< 7) ||| (regBits rs1 <<< 15)
        ||| ((predSet &&& 0xf) <<< 24) ||| ((succSet &&& 0xf) <<< 20)
        ||| (fenceModeBits mode <<< 28)
  | .ecall => 0x00000073
  | .ebreak => 0x00100073
  | .fencei rd rs1 imm => encI 0x0000100f rd rs1 imm
  | .csrRw rd rs1 csr => encCsr 0x00001073 rd rs1 csr
  | .csrRs rd rs1 csr => encCsr 0x00002073 rd rs1 csr
  | .csrRc rd rs1 csr => encCsr 0x00003073 rd rs1 csr
  | .csrRwi rd uimm csr => encCsrI 0x00005073 rd uimm csr
  | .csrRsi rd uimm csr => encCsrI 0x00006073 rd uimm csr
  | .csrRci rd uimm csr => encCsrI 0x00007073 rd uimm csr
  | .mul rd rs1 rs2 => encR 0x02000033 rd rs1 rs2
  | .mulh rd rs1 rs2 => encR 0x02001033 rd rs1 rs2
  | .mulhsu rd rs1 rs2 => encR 0x02002033 rd rs1 rs2
  | .mulhu rd rs1 rs2 => encR 0x02003033 rd rs1 rs2
  | .div rd rs1 rs2 => encR 0x02004033 rd rs1 rs2
  | .divu rd rs1 rs2 => encR 0x02005033 rd rs1 rs2
  | .rem rd rs1 rs2 => encR 0x02006033 rd rs1 rs2
  | .remu rd rs1 rs2 => encR 0x02007033 rd rs1 rs2
  | .lrw rd rs1 aq rl => encAmo 0x1000202f rd rs1 (regOfBits 0) aq rl
  | .scw rd rs1 rs2 aq rl => encAmo 0x1800202f rd rs1 rs2 aq rl
  | .amoSwapw rd rs1 rs2 aq rl => encAmo 0x0800202f rd rs1 rs2 aq rl
  | .amoAddw rd rs1 rs2 aq rl => encAmo 0x0000202f rd rs1 rs2 aq rl
  | .amoXorw rd rs1 rs2 aq rl => encAmo 0x2000202f rd rs1 rs2 aq rl
  | .amoAndw rd rs1 rs2 aq rl => encAmo 0x6000202f rd rs1 rs2 aq rl
  | .amoOrw rd rs1 rs2 aq rl => encAmo 0x4000202f rd rs1 rs2 aq rl
  | .amoMinw rd rs1 rs2 aq rl => encAmo 0x8000202f rd rs1 rs2 aq rl
  | .amoMaxw rd rs1 rs2 aq rl => encAmo 0xa000202f rd rs1 rs2 aq rl
  | .amoMinuw rd rs1 rs2 aq rl => encAmo 0xc000202f rd rs1 rs2 aq rl
  | .amoMaxuw rd rs1 rs2 aq rl => encAmo 0xe000202f rd rs1 rs2 aq rl
  | .invalid raw => raw

/-! ## Set-associative cache (hart/mmu/cache/{types,block,set}.rs, cache.rs)

`S` = log2(sets), `A` = associativity, `B` = log2(block entries).  Tags are
stored as u32 values with `u32::MAX` as the invalid marker.  Rust's in-place
fill closure `f: Fn(&mut [T; 1 << B]) -> Result<O, E>` becomes a function from
the slot's current data to `Except E` of the new data; on a fill error the
enclosing call errors out like the `?` operator does. -/

/-- `Tag::INV`, i.e. `u32::MAX`. -/
def tagINV : Nat := 4294967295

/-- `Addr::tag`: `addr >> (S + B)`. -/
def addrTag (S B addr : Nat) : Nat := addr >>> (S + B)

/-- `Addr::set`: `(addr << (32 - S - B)) >> (32 - S)` in u32 arithmetic. -/
def addrSet (S B addr : Nat) : Nat := ((addr <<< (32 - S - B)) % U32MOD) >>> (32 - S)

/-- `Addr::offset`: `(addr << (32 - B)) >> (32 - B)` in u32 arithmetic. -/
def addrOffset (B addr : Nat) : Nat := ((addr <<< (32 - B)) % U32MOD) >>> (32 - B)

/-- `cache::block::Block`: `2^B` entries of data plus a tracker. -/
structure CBlock (T U : Type) where
  data : List T
  tracker : U

/-- `Block::new()` for a given entry count. -/
def CBlock.new (T U : Type) [Inhabited T] [Inhabited U] (entries : Nat) : CBlock T U :=
  ⟨List.replicate entries default, default⟩

/-- `cache::set::Set`: `A` blocks with their tags, dirty flags, and the
round-robin victim pointer. -/
structure CSet (T U : Type) where
  blocks : List (CBlock T U)
  tags : List Nat
  dirty : List Bool
  victim : Nat

/-- `Set::new()` for a given geometry. -/
def CSet.new (T U : Type) [Inhabited T] [Inhabited U] (A entries : Nat) : CSet T U :=
  ⟨List.replicate A (CBlock.new T U entries), List.replicate A tagINV,
    List.replicate A false, 0⟩

/-- `Set::get_block`: position of the matching tag, if resident. -/
def CSet.findTag {T U : Type} (s : CSet T U) (tag : Nat) : Option Nat :=
  s.tags.findIdx? (fun t => t = tag)

/-- `Set::insert_with(tag, f)`: choose the first invalid (or tag-matching)
slot, else the round-robin victim; overwrite the tag; run the fill on the
slot's data buffer.  The dirty flag is NOT touched and the tracker keeps the
previous occupant's value, exactly as the source is written.  Returns the new
set, the chosen slot, and `some (victim_tag, victim_block)` iff the previous
occupant was valid and the slot's dirty flag is set. -/
def CSet.insertWith {T U E : Type} [Inhabited T] [Inhabited U] (A : Nat) (s : CSet T U)
    (tag : Nat) (fill : List T → Except E (List T)) :
    Except E (CSet T U × Nat × Option (Nat × CBlock T U)) := do
  let idx := match s.tags.findIdx? (fun t => t = tagINV || t = tag) with
    | some i => i
    | none => s.victim
  let victimBumped := s.tags.findIdx? (fun t => t = tagINV || t = tag) |>.isNone
  let victimTag := s.tags.getD idx 0
  let victimBlock := s.blocks.getD idx (CBlock.new T U 0)
  let newData ← fill victimBlock.data
  let s' : CSet T U :=
    { s with
      tags := s.tags.set idx tag
      blocks := s.blocks.set idx ⟨newData, victimBlock.tracker⟩
      victim := if victimBumped then (s.victim + 1) % A else s.victim }
  let victimOut :=
    if victimTag ≠ tagINV ∧ s.dirty.getD idx false then some (victimTag, victimBlock)
    else none
  .ok (s', idx, victimOut)

/-- `Set::get_block_or_insert_with`: hit returns the resident slot with no
victim; miss defers to `insert_with`. -/
def CSet.getBlockOrInsertWith {T U E : Type} [Inhabited T] [Inhabited U] (A : Nat)
    (s : CSet T U) (tag : Nat) (fill : List T → Except E (List T)) :
    Except E (CSet T U × Nat × Option (Nat × CBlock T U)) :=
  match s.findTag tag with
  | some i => .ok (s, i, none)
  | none => s.insertWith A tag fill

/-- `cache::Cache`: `2^S` sets. -/
structure CCache (T U : Type) where
  sets : List (CSet T U)

/-- `Cache::new()` for geometry (S, A, B). -/
def CCache.new (T U : Type) [Inhabited T] [Inhabited U] (S A B : Nat) : CCache T U :=
  ⟨List.replicate (2 ^ S) (CSet.new T U A (2 ^ B))⟩

/-- `Cache::get(addr)`: the entry at the addressed offset if its block is
resident. -/
def CCache.get {T U : Type} [Inhabited T] [Inhabited U] (S B : Nat) (c : CCache T U)
    (addr : Nat) : Option T :=
  let s := c.sets.getD (addrSet S B addr) (CSet.new T U 0 0)
  match s.findTag (addrTag S B addr) with
  | some i => some ((s.blocks.getD i (CBlock.new T U 0)).data.getD (addrOffset B addr) default)
  | none => none

/-- `Cache::get_mut(addr)` rendered functionally: if the block is resident,
mark the slot dirty (`Set::get_block_mut` does) and rewrite the addressed
entry and the tracker with `upd` applied to their current values. -/
def CCache.getMutUpdate {T U : Type} [Inhabited T] [Inhabited U] (S B : Nat) (c : CCache T U)
    (addr : Nat) (upd : T → U → T × U) : Option (CCache T U) :=
  let si := addrSet S B addr
  let s := c.sets.getD si (CSet.new T U 0 0)
  match s.findTag (addrTag S B addr) with
  | some i =>
    let blk := s.blocks.getD i (CBlock.new T U 0)
    let off := addrOffset B addr
    let (t', u') := upd (blk.data.getD off default) blk.tracker
    let blk' : CBlock T U := ⟨blk.data.set off t', u'⟩
    let s' := { s with dirty := s.dirty.set i true, blocks := s.blocks.set i blk' }
    some ⟨c.sets.set si s'⟩
  | none => none

/-- The evicted-block address computed in `Cache::get_or_insert_with` and
`get_mut_or_insert_with`: `((tag >> (S + B)) << (S + B)) | set_offset` where
`set_offset` keeps the low `S + B` bits of the requested address. -/
def evictedBlockAddr (S B victimTag addr : Nat) : Nat :=
  let setOffset := ((addr <<< (32 - S - B)) % U32MOD) >>> (32 - S - B)
  let tagField := (victimTag >>> (S + B)) <<< (S + B)
  tagField ||| setOffset

/-- `Cache::get_or_insert_with(addr, f)`: on hit, the resident entry; on miss,
fill via the set's `insert_with` and report the victim triple with the
evicted-block address reconstruction of the source. -/
def CCache.getOrInsertWith {T U E : Type} [Inhabited T] [Inhabited U] (S A B : Nat)
    (c : CCache T U) (addr : Nat) (fill : List T → Except E (List T)) :
    Except E (T × Option (Nat × List T × U) × CCache T U) := do
  let si := addrSet S B addr
  let s := c.sets.getD si (CSet.new T U 0 0)
  let (s', idx, victim) ← s.getBlockOrInsertWith A (addrTag S B addr) fill
  let entry := (s'.blocks.getD idx (CBlock.new T U 0)).data.getD (addrOffset B addr) default
  let victimTriple := victim.map (fun (vt, vb) =>
    (evictedBlockAddr S B vt addr, vb.data, vb.tracker))
  .ok (entry, victimTriple, ⟨c.sets.set si s'⟩)

/-- `Cache::get_mut_or_insert_with(addr, f)` rendered functionally: like
`get_or_insert_with` (the found branch of `get_block_mut_or_insert_with` does
NOT set the dirty flag), followed by the caller's mutation `upd` of the
addressed entry and the tracker through the returned references. -/
def CCache.getMutOrInsertWithUpdate {T U E : Type} [Inhabited T] [Inhabited U] (S A B : Nat)
    (c : CCache T U) (addr : Nat) (fill : List T → Except E (List T))
    (upd : T → U → T × U) :
    Except E (Option (Nat × List T × U) × CCache T U) := do
  let si := addrSet S B addr
  let s := c.sets.getD si (CSet.new T U 0 0)
  let (s', idx, victim) ← s.getBlockOrInsertWith A (addrTag S B addr) fill
  let blk := s'.blocks.getD idx (CBlock.new T U 0)
  let off := addrOffset B addr
  let (t', u') := upd (blk.data.getD off default) blk.tracker
  let blk' : CBlock T U := ⟨blk.data.set off t', u'⟩
  let s'' := { s' with blocks := s'.blocks.set idx blk' }
  let victimTriple := victim.map (fun (vt, vb) =>
    (evictedBlockAddr S B vt addr, vb.data, vb.tracker))
  .ok (victimTriple, ⟨c.sets.set si s''⟩)

/-! ## MMU (hart/mmu.rs)

The per-hart MMU: the reservation cell's current value, the data cache
(`Cache<u32, u64, 8, 2, 4>`) and the instruction cache
(`Cache<Instruction, (), 8, 2, 4>`).  The shared bus is a parameter record of
the operations the MMU invokes on it; on the host every value is little-endian
so the `to_le`/`from_le` calls are identity. -/

instance : Inhabited Instr := ⟨.invalid 0⟩

/-- The bus operations the MMU uses, as pure functions (bus.rs routes them to
main memory or a device mapping).  `storeConditional` receives the current
reservation-cell value and returns the result together with the cell's new
value (the compare-exchange of `helper_check_reservation` runs behind it). -/
structure BusModel where
  loadWord : Nat → Except MemoryError Nat
  storeConditional : Nat → Nat → Nat → Nat → Except MemoryError (Nat × Nat)
  blockRead : Nat → Except MemoryError (List Nat)
  blockWriteMasked : Nat → List Nat → Nat → Except MemoryError Unit

/-- `hart::mmu::Mmu`: reservation cell value, d-cache, i-cache. -/
structure MmuState where
  reservation : Nat
  dCache : CCache Nat Nat
  iCache : CCache Instr Unit

/-- A fresh MMU: empty caches (`Mmu::new` leaves the cell to the owner). -/
def MmuState.new (reservation : Nat) : MmuState :=
  ⟨reservation, CCache.new Nat Nat 8 2 4, CCache.new Instr Unit 8 2 4⟩

/-- Extract the W-byte value addressed by `addr` from a cached word, as the
`as_u8_array`/`as_u16_array` indexing does on a little-endian host. -/
def subWord (W w addr : Nat) : Nat :=
  if W = 4 then w
  else if W = 2 then (w >>> (16 * ((addr >>> 1) &&& 1))) &&& 0xffff
  else (w >>> (8 * (addr &&& 3))) &&& 0xff

/-- Overwrite the W-byte lane addressed by `addr` inside a cached word and
or the W dirty bits at byte position `addr & 0x3f` into the u64 tracker. -/
def storeLane (W w tracker addr val : Nat) : Nat × Nat :=
  if W = 4 then (val % U32MOD, (tracker ||| (15 <<< (addr &&& 0x3f))) % U64MOD)
  else if W = 2 then
    let lane := (addr >>> 1) &&& 1
    ((w &&& (0xffffffff ^^^ (0xffff <<< (16 * lane)))) ||| ((val &&& 0xffff) <<< (16 * lane)),
      (tracker ||| (3 <<< (addr &&& 0x3f))) % U64MOD)
  else
    let lane := addr &&& 3
    ((w &&& (0xffffffff ^^^ (0xff <<< (8 * lane)))) ||| ((val &&& 0xff) <<< (8 * lane)),
      (tracker ||| (1 <<< (addr &&& 0x3f))) % U64MOD)

/-- The d-cache fill closure of `load_physical`/`store_physical`: a 64-byte
`block_read` from the bus at `addr & 0xffffffc0`, with the `?` conversion of a
`MemoryError` into `MmuError::BusError`. -/
def dFill (bus : BusModel) (addr : Nat) : List Nat → Except Fault (List Nat) :=
  fun _old =>
    match bus.blockRead (addr &&& 0xffffffc0) with
    | .ok ws => .ok ws
    | .error e => .error (.mmu (.busError e))

/-- Write back an evicted dirty line through `block_write_masked` at the
reconstructed address shifted back to bytes (`addr << 2`). -/
def writeBack (bus : BusModel) (ev : Option (Nat × List Nat × Nat)) : Except Fault Unit :=
  match ev with
  | none => .ok ()
  | some (eaddr, data, mask) =>
    match bus.blockWriteMasked ((eaddr <<< 2) % U32MOD) data mask with
    | .ok _ => .ok ()
    | .error e => .error (.mmu (.busError e))

/-- `Mmu::load_physical::<W>` (mmu.rs): alignment check, d-cache fast path,
else fill from the bus (addresses with bit 31 set hit the `todo!()` inside
`cacheable`), writing back any evicted dirty line.  The misalignment error
uses `LoadMisaligned` and the W-specific alignment exactly as the source. -/
def mmuLoadPhysical (bus : BusModel) (st : MmuState) (W addr : Nat) :
    Except Fault (Nat × MmuState) := do
  if ¬(W = 1 ∨ W = 2 ∨ W = 4) then .error (.panic .unreachableCode)
  else if W = 4 ∧ addr &&& 3 ≠ 0 then .error (.mmu (.loadMisaligned addr 4))
  else if W = 2 ∧ addr &&& 1 ≠ 0 then .error (.mmu (.loadMisaligned addr 2))
  else
    match CCache.get 8 4 st.dCache (addr >>> 2) with
    | some w => .ok (subWord W w addr, st)
    | none =>
      if addr &&& 0x80000000 ≠ 0 then .error (.panic .todoCode)
      else do
        let (w, ev, d') ← CCache.getOrInsertWith 8 2 4 st.dCache (addr >>> 2) (dFill bus addr)
        let _ ← writeBack bus ev
        .ok (subWord W w addr, { st with dCache := d' })

/-- `Mmu::store_physical::<W>` (mmu.rs): alignment check (the source reports
`LoadMisaligned` here too), d-cache fast path through `get_mut` (which marks
the set slot dirty), else fill via `get_mut_or_insert_with` (which does not
touch the dirty flag) with write-back of the evicted line, updating the word
lane and the byte-dirtiness tracker either way. -/
def mmuStorePhysical (bus : BusModel) (st : MmuState) (W addr val : Nat) :
    Except Fault MmuState := do
  if ¬(W = 1 ∨ W = 2 ∨ W = 4) then .error (.panic .unreachableCode)
  else if W = 4 ∧ addr &&& 3 ≠ 0 then .error (.mmu (.loadMisaligned addr 4))
  else if W = 2 ∧ addr &&& 1 ≠ 0 then .error (.mmu (.loadMisaligned addr 2))
  else
    match CCache.getMutUpdate 8 4 st.dCache (addr >>> 2)
        (fun w u => storeLane W w u addr val) with
    | some d' => .ok { st with dCache := d' }
    | none =>
      if addr &&& 0x80000000 ≠ 0 then .error (.panic .todoCode)
      else do
        let (ev, d') ← CCache.getMutOrInsertWithUpdate 8 2 4 st.dCache (addr >>> 2)
          (dFill bus addr) (fun w u => storeLane W w u addr val)
        let _ ← writeBack bus ev
        .ok { st with dCache := d' }

/-- The i-cache fill closure of `load_instruction`: a 64-byte `block_read`
into raw words, then `u32::from_le(s).into()` — the decoder — on each of the
16 words; a decode panic propagates as a panic. -/
def iFill (bus : BusModel) (addr : Nat) : List Instr → Except Fault (List Instr) :=
  fun _old =>
    match bus.blockRead (addr &&& 0xffffffc0) with
    | .error e => .error (.mmu (.busError e))
    | .ok ws =>
      match ws.mapM decode with
      | .ok instrs => .ok instrs
      | .error p => .error (.panic p)

/-- `Mmu::load_instruction(addr)` (mmu.rs): 4-byte alignment check, i-cache
lookup, else fill the line with pre-decoded instructions (the eviction report
is discarded — the i-cache never writes back). -/
def mmuLoadInstruction (bus : BusModel) (st : MmuState) (addr : Nat) :
    Except Fault (Instr × MmuState) := do
  if addr &&& 3 ≠ 0 then .error (.mmu (.loadMisaligned addr 4))
  else
    match CCache.get 8 4 st.iCache (addr >>> 2) with
    | some op => .ok (op, st)
    | none => do
      let (op, _ev, i') ← CCache.getOrInsertWith 8 2 4 st.iCache (addr >>> 2) (iFill bus addr)
      .ok (op, { st with iCache := i' })

/-- `Mmu::load_reserved(addr)` (mmu.rs): store `addr >> 6` into the
reservation cell, then load the word directly from the bus — the d-cache is
not consulted.  The cell is updated even when the bus load fails. -/
def mmuLoadReserved (bus : BusModel) (st : MmuState) (addr : Nat) :
    (Except MemoryError Nat) × MmuState :=
  let st' := { st with reservation := addrToReservationSet addr }
  (bus.loadWord addr, st')

/-- `Mmu::store_conditional(addr, val)` (mmu.rs): if the reservation cell
differs from `addr >> 6`, return 1 without touching anything; otherwise
delegate to the bus's `store_conditional` with the cell and the expected
value, adopting the cell value it leaves behind. -/
def mmuStoreConditional (bus : BusModel) (st : MmuState) (addr val : Nat) :
    Except MemoryError (Nat × MmuState) :=
  let rs := addrToReservationSet addr
  if st.reservation ≠ rs then .ok (1, st)
  else
    match bus.storeConditional addr val st.reservation rs with
    | .ok (r, cell) => .ok (r, { st with reservation := cell })
    | .error e => .error e

/-! ## M-extension division (hart/rv32m.rs)

The `Operation` record fields the division family reads: rd, rs1, rs2 (its
`kind` and `value` fields are unused by these four instructions). -/

/-- The fields of `instruction::Operation` used by the rv32m handlers. -/
structure Operation where
  rd : Fin 32
  rs1 : Fin 32
  rs2 : Fin 32

/-- `Rv32m::div` (rv32m.rs): `(rs1 as i32 as i64).wrapping_div(rs2 as i32 as
i64) as u32`.  Rust's `wrapping_div` panics on a zero divisor; the i64
widening makes the INT_MIN / -1 case wrap silently to INT_MIN after the u32
truncation. -/
def rv32mDiv (rf : RegisterFile) (op : Operation) : Except Panic RegisterFile :=
  let a := toSigned32 (rf.read op.rs1.val)
  let b := toSigned32 (rf.read op.rs2.val)
  if b = 0 then .error .divByZero
  else .ok (rf.set op.rd (u32ofInt (Int.tdiv a b)))

/-- `Rv32m::divu` (rv32m.rs): `rs1.wrapping_div(rs2)` on u32; panics on a zero
divisor. -/
def rv32mDivu (rf : RegisterFile) (op : Operation) : Except Panic RegisterFile :=
  let a := rf.read op.rs1.val
  let b := rf.read op.rs2.val
  if b = 0 then .error .divByZero
  else .ok (rf.set op.rd (a / b))

/-- `Rv32m::rem` (rv32m.rs): `(rs1 as i32).wrapping_rem(rs2 as i32) as u32`;
panics on a zero divisor; INT_MIN rem -1 wraps to 0 (which truncated
remainder also yields). -/
def rv32mRem (rf : RegisterFile) (op : Operation) : Except Panic RegisterFile :=
  let a := toSigned32 (rf.read op.rs1.val)
  let b := toSigned32 (rf.read op.rs2.val)
  if b = 0 then .error .divByZero
  else .ok (rf.set op.rd (u32ofInt (Int.tmod a b)))

/-- `Rv32m::remu` (rv32m.rs): `rs1.wrapping_rem(rs2)` on u32; panics on a zero
divisor. -/
def rv32mRemu (rf : RegisterFile) (op : Operation) : Except Panic RegisterFile :=
  let a := rf.read op.rs1.val
  let b := rf.read op.rs2.val
  if b = 0 then .error .divByZero
  else .ok (rf.set op.rd (a % b))

/-! ## Hart step (hart/step.rs)

`Hart { pc, reg, mmu }` with the `Step::step` dispatch.  The register file of
this revision is accessed through `Index`/`IndexMut` over the decoder's `Reg`
(including `Ignore`). -/

/-- `Conclusion` (instruction/types.rs): the result of one executed
instruction. -/
inductive Conclusion where
  | none
  | jumped
  | exception (code : Nat)
deriving DecidableEq

/-- The hart: program counter, register file, MMU. -/
structure HartState where
  pc : Nat
  reg : RegisterFile
  mmu : MmuState

/-- Read `self.reg[r]` (`Index<Reg>`): slot `r as usize`, with `Ignore` at the
graveyard slot 32. -/
def hartRegRead (rf : RegisterFile) (r : Reg) : Nat := rf.read r.slot

/-- Modelled from the spec: the `IndexMut<Reg>` implementation of the step.rs
revision's register file is not in the snapshot; per the spec's data model,
x0 and `Ignore` share the graveyard storage and writes to either are silent
drops, while every other register stores normally. -/
def hartRegWrite (rf : RegisterFile) (r : Reg) (v : Nat) : RegisterFile :=
  match r with
  | .x n => rf.set n v
  | .ignore => ⟨rf.reg.set 32 v⟩

/-- Map a fault from an MMU call inside `step` to the panic that the
`Err(_) => todo!()` match arms of step.rs raise; a panic from inside the MMU
(e.g. a decode panic during an i-cache fill) propagates unchanged. -/
def faultAsTodo : Fault → Fault
  | .mmu _ => .panic .todoCode
  | f => f

/-- A taken control transfer of step.rs: check the 4-byte alignment of the
target (`todo!()` on violation — the misaligned-jump exception is
unimplemented), then set the pc. -/
def takenJump (h : HartState) (target : Nat) : Except Fault (Conclusion × HartState) :=
  if target &&& 3 ≠ 0 then .error (.panic .todoCode)
  else .ok (.jumped, { h with pc := target })

/-- The instruction dispatch of `Step::step` (step.rs), one match arm per
`Instruction` variant; `todo!()` arms panic. -/
def hartExec (bus : BusModel) (h : HartState) : Instr → Except Fault (Conclusion × HartState)
  | .lui rd imm => .ok (.none, { h with reg := hartRegWrite h.reg rd (u32ofInt imm) })
  | .auipc rd imm =>
    .ok (.none, { h with reg := hartRegWrite h.reg rd (u32ofInt ((h.pc : Int) + imm)) })
  | .jal rd imm =>
    let target := u32ofInt ((h.pc : Int) + int21Via imm)
    if target &&& 3 ≠ 0 then .error (.panic .todoCode)
    else .ok (.jumped,
      { h with reg := hartRegWrite h.reg rd ((h.pc + 4) % U32MOD), pc := target })
  | .jalr rd rs1 imm =>
    let target := u32ofInt ((hartRegRead h.reg rs1 : Int) + imm) &&& 0xfffffffe
    if target &&& 3 ≠ 0 then .error (.panic .todoCode)
    else .ok (.jumped,
      { h with reg := hartRegWrite h.reg rd ((h.pc + 4) % U32MOD), pc := target })
  | .beq rs1 rs2 imm =>
    if hartRegRead h.reg rs1 ≠ hartRegRead h.reg rs2 then .ok (.none, h)
    else takenJump h (u32ofInt ((h.pc : Int) + imm))
  | .bne rs1 rs2 imm =>
    if hartRegRead h.reg rs1 = hartRegRead h.reg rs2 then .ok (.none, h)
    else takenJump h (u32ofInt ((h.pc : Int) + imm))
  | .blt rs1 rs2 imm =>
    if toSigned32 (hartRegRead h.reg rs1) ≥ toSigned32 (hartRegRead h.reg rs2) then
      .ok (.none, h)
    else takenJump h (u32ofInt ((h.pc : Int) + imm))
  | .bge rs1 rs2 imm =>
    if toSigned32 (hartRegRead h.reg rs1) < toSigned32 (hartRegRead h.reg rs2) then
      .ok (.none, h)
    else takenJump h (u32ofInt ((h.pc : Int) + imm))
  | .bltu rs1 rs2 imm =>
    if hartRegRead h.reg rs1 ≥ hartRegRead h.reg rs2 then .ok (.none, h)
    else takenJump h (u32ofInt ((h.pc : Int) + imm))
  | .bgeu rs1 rs2 imm =>
    if hartRegRead h.reg rs1 < hartRegRead h.reg rs2 then .ok (.none, h)
    else takenJump h (u32ofInt ((h.pc : Int) + imm))
  | .lb _ _ _ => .error (.panic .todoCode)
  | .lh _ _ _ => .error (.panic .todoCode)
  | .lw rd rs1 imm =>
    let addr := u32ofInt ((hartRegRead h.reg rs1 : Int) + imm)
    match mmuLoadPhysical bus h.mmu 4 addr with
    | .ok (v, mmu') =>
      .ok (.none, { h with reg := hartRegWrite h.reg rd v, mmu := mmu' })
    | .error f => .error (faultAsTodo f)
  | .lbu _ _ _ => .error (.panic .todoCode)
  | .lhu _ _ _ => .error (.panic .todoCode)
  | .sb rs1 rs2 imm =>
    let addr := u32ofInt ((hartRegRead h.reg rs1 : Int) + imm)
    match mmuStorePhysical bus h.mmu 1 addr (hartRegRead h.reg rs2 &&& 0xff) with
    | .ok mmu' => .ok (.none, { h with mmu := mmu' })
    | .error f => .error (faultAsTodo f)
  | .sh rs1 rs2 imm =>
    let addr := u32ofInt ((hartRegRead h.reg rs1 : Int) + imm)
    match mmuStorePhysical bus h.mmu 2 addr (hartRegRead h.reg rs2 &&& 0xffff) with
    | .ok mmu' => .ok (.none, { h with mmu := mmu' })
    | .error f => .error (faultAsTodo f)
  | .sw rs1 rs2 imm =>
    let addr := u32ofInt ((hartRegRead h.reg rs1 : Int) + imm)
    match mmuStorePhysical bus h.mmu 4 addr (hartRegRead h.reg rs2) with
    | .ok mmu' => .ok (.none, { h with mmu := mmu' })
    | .error f => .error (faultAsTodo f)
  | .addi rd rs1 imm =>
    let v := hartRegWrite h.reg rd (u32ofInt ((hartRegRead h.reg rs1 : Int) + imm))
    .ok (.none, { h with reg := v })
  | .slti rd rs1 imm =>
    let v := hartRegWrite h.reg rd (if toSigned32 (hartRegRead h.reg rs1) < imm then 1 else 0)
    .ok (.none, { h with reg := v })
  | .sltiu rd rs1 imm =>
    let v := hartRegWrite h.reg rd (if hartRegRead h.reg rs1 < u32ofInt imm then 1 else 0)
    .ok (.none, { h with reg := v })
  | .xori rd rs1 imm =>
    let v := hartRegWrite h.reg rd (hartRegRead h.reg rs1 ^^^ u32ofInt imm)
    .ok (.none, { h with reg := v })
  | .ori rd rs1 imm =>
    let v := hartRegWrite h.reg rd (hartRegRead h.reg rs1 ||| u32ofInt imm)
    .ok (.none, { h with reg := v })
  | .andi rd rs1 imm =>
    let v := hartRegWrite h.reg rd (hartRegRead h.reg rs1 &&& u32ofInt imm)
    .ok (.none, { h with reg := v })
  | .slli rd rs1 shamt =>
    let v := hartRegWrite h.reg rd ((hartRegRead h.reg rs1 <<< shamt) % U32MOD)
    .ok (.none, { h with reg := v })
  | .srli rd rs1 shamt =>
    .ok (.none, { h with reg := hartRegWrite h.reg rd (hartRegRead h.reg rs1 >>> shamt) })
  | .srai rd rs1 shamt =>
    let v := hartRegWrite h.reg rd (u32ofInt (i32asr (hartRegRead h.reg rs1) shamt))
    .ok (.none, { h with reg := v })
  | .add rd rs1 rs2 =>
    let v := hartRegWrite h.reg rd ((hartRegRead h.reg rs1 + hartRegRead h.reg rs2) % U32MOD)
    .ok (.none, { h with reg := v })
  | .sub rd rs1 rs2 =>
    let v := hartRegWrite h.reg rd ((hartRegRead h.reg rs1 + U32MOD - hartRegRead h.reg rs2 % U32MOD) % U32MOD)
    .ok (.none, { h with reg := v })
  | .sll rd rs1 rs2 =>
    let v := hartRegWrite h.reg rd ((hartRegRead h.reg rs1 <<< (hartRegRead h.reg rs2 % 32)) % U32MOD)
    .ok (.none, { h with reg := v })
  | .slt rd rs1 rs2 =>
    let c := toSigned32 (hartRegRead h.reg rs1) < toSigned32 (hartRegRead h.reg rs2)
    let v := hartRegWrite h.reg rd (if c then 1 else 0)
    .ok (.none, { h with reg := v })
  | .sltu rd rs1 rs2 =>
    let v := hartRegWrite h.reg rd (if hartRegRead h.reg rs1 < hartRegRead h.reg rs2 then 1 else 0)
    .ok (.none, { h with reg := v })
  | .xor rd rs1 rs2 =>
    let v := hartRegWrite h.reg rd (hartRegRead h.reg rs1 ^^^ hartRegRead h.reg rs2)
    .ok (.none, { h with reg := v })
  | .srl rd rs1 rs2 =>
    let v := hartRegWrite h.reg rd (hartRegRead h.reg rs1 >>> (hartRegRead h.reg rs2 % 32))
    .ok (.none, { h with reg := v })
  | .sra rd rs1 rs2 =>
    let v := hartRegWrite h.reg rd (u32ofInt (i32asr (hartRegRead h.reg rs1) (hartRegRead h.reg rs2 % 32)))
    .ok (.none, { h with reg := v })
  | .or rd rs1 rs2 =>
    let v := hartRegWrite h.reg rd (hartRegRead h.reg rs1 ||| hartRegRead h.reg rs2)
    .ok (.none, { h with reg := v })
  | .and rd rs1 rs2 =>
    let v := hartRegWrite h.reg rd (hartRegRead h.reg rs1 &&& hartRegRead h.reg rs2)
    .ok (.none, { h with reg := v })
  | .fence _ _ _ _ _ => .error (.panic .todoCode)
  | .fencei _ _ _ => .error (.panic .todoCode)
  | .ecall => .ok (.exception 2, h)
  | .ebreak => .error (.panic .todoCode)
  | .csrRw _ _ _ => .error (.panic .todoCode)
  | .csrRs _ _ _ => .error (.panic .todoCode)
  | .csrRc _ _ _ => .error (.panic .todoCode)
  | .csrRwi _ _ _ => .error (.panic .todoCode)
  | .csrRsi _ _ _ => .error (.panic .todoCode)
  | .csrRci _ _ _ => .error (.panic .todoCode)
  | .mul _ _ _ => .error (.panic .todoCode)
  | .mulh _ _ _ => .error (.panic .todoCode)
  | .mulhsu _ _ _ => .error (.panic .todoCode)
  | .mulhu _ _ _ => .error (.panic .todoCode)
  | .div _ _ _ => .error (.panic .todoCode)
  | .divu _ _ _ => .error (.panic .todoCode)
  | .rem _ _ _ => .error (.panic .todoCode)
  | .remu _ _ _ => .error (.panic .todoCode)
  | .lrw _ _ _ _ => .error (.panic .todoCode)
  | .scw _ _ _ _ _ => .error (.panic .todoCode)
  | .amoSwapw _ _ _ _ _ => .error (.panic .todoCode)
  | .amoAddw _ _ _ _ _ => .error (.panic .todoCode)
  | .amoXorw _ _ _ _ _ => .error (.panic .todoCode)
  | .amoAndw _ _ _ _ _ => .error (.panic .todoCode)
  | .amoOrw _ _ _ _ _ => .error (.panic .todoCode)
  | .amoMinw _ _ _ _ _ => .error (.panic .todoCode)
  | .amoMaxw _ _ _ _ _ => .error (.panic .todoCode)
  | .amoMinuw _ _ _ _ _ => .error (.panic .todoCode)
  | .amoMaxuw _ _ _ _ _ => .error (.panic .todoCode)
  | .invalid _ => .error (.panic .todoCode)

/-- `Step::step` (step.rs): fetch through the MMU — an `Err` hits the
`todo!()` arm, i.e. a panic, and never becomes a `Conclusion::Exception` —
then dispatch, then advance the pc by 4 on a `None` conclusion. -/
def hartStep (bus : BusModel) (h : HartState) : Except Fault (Conclusion × HartState) :=
  match mmuLoadInstruction bus h.mmu h.pc with
  | .error f => .error (faultAsTodo f)
  | .ok (inst, mmu') =>
    match hartExec bus { h with mmu := mmu' } inst with
    | .error f => .error f
    | .ok (c, h') =>
      match c with
      | .none => .ok (c, { h' with pc := (h'.pc + 4) % U32MOD })
      | _ => .ok (c, h')

/-! ## Concrete instances observed by the theorems -/

/-- A bus whose every operation reports `BlockOperationUnsupported`; the
theorems that use it never reach the bus. -/
def trivBus : BusModel :=
  ⟨fun _ => .error .blockOperationUnsupported,
   fun _ _ _ _ => .error .blockOperationUnsupported,
   fun _ => .error .blockOperationUnsupported,
   fun _ _ _ => .error .blockOperationUnsupported⟩

/-- One-frame main memory with one registered reservation cell (index 0). -/
def c1Main : MainSt := { MainSt.new 1 with reservations := [0] }

/-- SC at offset 0 with value 42 when the reservation cell (index 0, value 5)
still holds the expected set 5. -/
def c1Pass : Except MemoryError (Nat × MainSt × List Nat) :=
  mainStoreConditional c1Main [5] 0 42 0 5

/-- SC at offset 0 with value 42 when the reservation cell holds 7 ≠ 5. -/
def c1Fail : Except MemoryError (Nat × MainSt × List Nat) :=
  mainStoreConditional c1Main [7] 0 42 0 5

/-- The returned code of a `Main::store_conditional` result. -/
def scResultCode : Except MemoryError (Nat × MainSt × List Nat) → Option Nat
  | .ok (r, _, _) => some r
  | .error _ => none

/-- The memory word at `offset` after a `Main::store_conditional` result. -/
def scResultWord (r : Except MemoryError (Nat × MainSt × List Nat)) (offset : Nat) :
    Option Nat :=
  match r with
  | .ok (_, st, _) => some (st.wordAt offset)
  | .error _ => none

/-- The reservation-cell values after a `Main::store_conditional` result. -/
def scResultCells : Except MemoryError (Nat × MainSt × List Nat) → Option (List Nat)
  | .ok (_, _, cs) => some cs
  | .error _ => none

/-- A hart about to fetch from the misaligned pc 2. -/
def c2Hart : HartState := ⟨2, RegisterFile.new, MmuState.new reservationSentinel⟩

/-- A d-cache set (geometry S=8, A=2, B=4) whose two slots hold valid tags 5
and 9, both dirty, slot 0 with tracker 7; round-robin victim at 0. -/
def c56Set : CSet Nat Nat :=
  ⟨[⟨List.replicate 16 11, 7⟩, ⟨List.replicate 16 22, 0⟩], [5, 9], [true, true], 0⟩

/-- A d-cache whose set 3 is `c56Set` and all other sets are empty. -/
def c56Cache : CCache Nat Nat := ⟨(CCache.new Nat Nat 8 2 4).sets.set 3 c56Set⟩

/-- A fill that succeeds with an all-42 line. -/
def c56Fill : List Nat → Except Unit (List Nat) := fun _ => .ok (List.replicate 16 42)

/-- The miss at word address 0x2039 (tag 2, set 3, offset 9) on `c56Cache`:
no invalid slot, so the victim slot 0 (tag 5, dirty, tracker 7) is replaced. -/
def c56Res : Except Unit (Nat × Option (Nat × List Nat × Nat) × CCache Nat Nat) :=
  CCache.getOrInsertWith 8 2 4 c56Cache 0x2039 c56Fill

/-- The cache component of a `get_or_insert_with` result. -/
def cacheOfRes (r : Except Unit (Nat × Option (Nat × List Nat × Nat) × CCache Nat Nat)) :
    CCache Nat Nat :=
  match r with
  | .ok (_, _, c) => c
  | .error _ => ⟨[]⟩

/-- The eviction triple of a `get_or_insert_with` result. -/
def evictedOfRes (r : Except Unit (Nat × Option (Nat × List Nat × Nat) × CCache Nat Nat)) :
    Option (Nat × List Nat × Nat) :=
  match r with
  | .ok (_, ev, _) => ev
  | .error _ => none

/-- The tag of slot `i` of set `si`. -/
def tagAt (c : CCache Nat Nat) (si i : Nat) : Nat :=
  (c.sets.getD si (CSet.new Nat Nat 0 0)).tags.getD i 0

/-- The dirty flag of slot `i` of set `si`. -/
def dirtyAt (c : CCache Nat Nat) (si i : Nat) : Bool :=
  (c.sets.getD si (CSet.new Nat Nat 0 0)).dirty.getD i false

/-- The tracker of slot `i` of set `si`. -/
def trackerAt (c : CCache Nat Nat) (si i : Nat) : Nat :=
  ((c.sets.getD si (CSet.new Nat Nat 0 0)).blocks.getD i (CBlock.new Nat Nat 0)).tracker

/-- The operation record rd=x3, rs1=x1, rs2=x2 for the division tests. -/
def c7Op : Operation := ⟨⟨3, by decide⟩, ⟨1, by decide⟩, ⟨2, by decide⟩⟩

/-- Registers with x1 = 1 and x2 = 0 (zero divisor). -/
def c7RfZero : RegisterFile := RegisterFile.new.set ⟨1, by decide⟩ 1

/-- Registers with x1 = INT_MIN and x2 = -1 (signed-overflow case). -/
def c7RfMin : RegisterFile :=
  (RegisterFile.new.set ⟨1, by decide⟩ 2147483648).set ⟨2, by decide⟩ 4294967295

/-- Register `i` after an rv32m instruction, when it did not panic. -/
def rv32mReg (r : Except Panic RegisterFile) (i : Nat) : Option Nat :=
  match r with
  | .ok rf => some (rf.read i)
  | .error _ => none

/-! ## Helper lemmas -/

/-- Setting one list position leaves every other `getD` unchanged. -/
theorem getD_set_ne (l : List Nat) (i j v d : Nat) (h : i ≠ j) :
    (l.set i v).getD j d = l.getD j d := by
  simp [List.getD_eq_getElem?_getD, List.getElem?_set_ne h]

/-- Setting an in-bounds position makes `getD` there return the new value. -/
theorem getD_set_self_lt (l : List Nat) (i v d : Nat) (h : i < l.length) :
    (l.set i v).getD i d = v := by
  simp [List.getD_eq_getElem?_getD, List.getElem?_set_self, h]

/-- A single compare-exchange step of the invalidation fold leaves each cell
at its old value or at the sentinel. -/
theorem casStep_pointwise (cs : List Nat) (r sb j : Nat) :
    (if cs.getD r 0 = sb then cs.set r reservationSentinel else cs).getD j 0 = cs.getD j 0 ∨
    (if cs.getD r 0 = sb then cs.set r reservationSentinel else cs).getD j 0 =
      reservationSentinel := by
  by_cases hc : cs.getD r 0 = sb
  · simp only [hc, if_pos, if_true]
    by_cases hrj : r = j
    · subst hrj
      by_cases hl : r < cs.length
      · right; exact getD_set_self_lt cs r _ 0 hl
      · left; rw [List.set_eq_of_length_le (Nat.le_of_not_lt hl)]
    · left; exact getD_set_ne cs r j _ 0 hrj
  · left; rw [if_neg hc]

/-- The whole invalidation fold leaves each cell at its old value or at the
sentinel. -/
theorem invalidate_pointwise (regs : List Nat) :
    ∀ (cells : List Nat) (sb j : Nat),
      (helperInvalidateReservations cells regs sb).getD j 0 = cells.getD j 0 ∨
      (helperInvalidateReservations cells regs sb).getD j 0 = reservationSentinel := by
  induction regs with
  | nil => intro cells sb j; left; rfl
  | cons r t ih =>
    intro cells sb j
    have hfold :
        helperInvalidateReservations cells (r :: t) sb =
        helperInvalidateReservations
          (if cells.getD r 0 = sb then cells.set r reservationSentinel else cells) t sb := by
      simp [helperInvalidateReservations]
    rw [hfold]
    rcases ih (if cells.getD r 0 = sb then cells.set r reservationSentinel else cells) sb j
      with h1 | h1
    · rw [h1]; exact casStep_pointwise cells r sb j
    · right; exact h1

/-- Setting a register never writes the slot that x0 reads. -/
theorem regfile_set_read_zero (rf : RegisterFile) (rd : Fin 32) (v : Nat) :
    (rf.set rd v).read 0 = rf.read 0 := by
  have h : regLut rd ≠ 0 := by
    unfold regLut
    split <;> omega
  exact getD_set_ne rf.reg (regLut rd) 0 v 0 h

/-- A whole sequence of register sets never changes the x0 read. -/
theorem regfile_applyAll_read_zero (ops : List (Fin 32 × Nat)) :
    ∀ rf : RegisterFile, (rf.applyAll ops).read 0 = rf.read 0 := by
  induction ops with
  | nil => intro rf; rfl
  | cons p t ih =>
    intro rf
    have hfold : rf.applyAll (p :: t) = (rf.set p.1 p.2).applyAll t := by
      simp [RegisterFile.applyAll]
    rw [hfold, ih, regfile_set_read_zero]

/-! ## The claims -/

/-- Claim C1: `Main::store_conditional` is claimed to store and return Ok(0)
exactly when the reservation cell holds the expected value, and to return
Ok(1) leaving memory unchanged otherwise.  The code has the condition
inverted: on the matching cell (value 5, expected 5) it returns Ok(0) without
storing (word stays 0) while consuming the reservation, and on the mismatched
cell (value 7) it returns Ok(1) yet performs the store (word becomes 42). -/
theorem c1_store_conditional_inverted :
    scResultCode c1Pass = some 0 ∧
    scResultWord c1Pass 0 = some 0 ∧
    scResultCells c1Pass = some [reservationSentinel] ∧
    scResultCode c1Fail = some 1 ∧
    scResultWord c1Fail 0 = some 42 :=
  ⟨rfl, rfl, rfl, rfl, rfl⟩

/-- Claim C2: a memory error during a hart step is claimed to convert into
`Conclusion::Exception(code)`; in the code the fetch error path is
`Err(_) => todo!()`, a panic — here at the misaligned pc 2. -/
theorem c2_step_panics_on_fetch_error :
    hartStep trivBus c2Hart = .error (.panic .todoCode) := rfl

/-- Claim C3: `decode` is claimed total and panic-free with Invalid for
unmatched encodings; the FENCE encoding 0x0000000F reaches the `todo!()` in
`Decoder::mode` and panics, while a genuinely unmatched word does produce
Invalid. -/
theorem c3_decode_panics_on_fence :
    decode 15 = .error .todoCode ∧ decode 4294967295 = .ok (.invalid 4294967295) :=
  ⟨rfl, rfl⟩

/-- Claim C4: the decode/encode round trip is claimed to reproduce every
non-Invalid instruction.  The word 0x00000063 (Branch, funct3 = 0) decodes to
Bne; injecting Bne's fields into its template yields 0x00001063, which
decodes to Beq — a different variant. -/
theorem c4_roundtrip_changes_variant :
    decode 99 = .ok (.bne (regOfBits 0) (regOfBits 0) 0) ∧
    encode (.bne (regOfBits 0) (regOfBits 0) 0) = 4195 ∧
    decode 4195 = .ok (.beq (regOfBits 0) (regOfBits 0) 0) ∧
    Instr.beq (regOfBits 0) (regOfBits 0) 0 ≠ Instr.bne (regOfBits 0) (regOfBits 0) 0 :=
  ⟨rfl, rfl, rfl, fun h => Instr.noConfusion h⟩

/-- Claim C5: a miss-insert is claimed to leave the slot clean — dirty flag
cleared and tracker zero-initialized.  On the cache whose victim slot (set 3,
slot 0) was dirty with tracker 7, the insert overwrites the tag (2 confirms
the insertion happened) but the dirty flag is still true and the tracker is
still 7. -/
theorem c5_insert_leaves_slot_dirty :
    tagAt (cacheOfRes c56Res) 3 0 = 2 ∧
    dirtyAt (cacheOfRes c56Res) 3 0 = true ∧
    trackerAt (cacheOfRes c56Res) 3 0 = 7 :=
  ⟨rfl, rfl, rfl⟩

/-- Claim C6: the eviction triple's address is claimed to be the victim's tag
with the slot's set index and zero block offset (here tag 5, set 3:
word address 0x5030 = 20528).  The code reports 0x39 = 57: the stored tag is
shifted down instead of up (vanishing) and the requesting address's block
offset bits are kept. -/
theorem c6_evicted_addr_mangled :
    evictedOfRes c56Res = some (57, List.replicate 16 11, 7) ∧
    57 ≠ ((5 <<< 12) ||| (3 <<< 4)) :=
  ⟨rfl, by decide⟩

/-- Claim C7: DIV/REM with divisor zero are claimed to write all-ones / the
dividend; the code's `wrapping_div`/`wrapping_rem` panic on a zero divisor
(x2 = 0), for all four division instructions.  The INT_MIN ÷ -1 quiet
identity does hold (DIV writes INT_MIN, REM writes 0). -/
theorem c7_division_by_zero_panics :
    rv32mDiv c7RfZero c7Op = .error .divByZero ∧
    rv32mDivu c7RfZero c7Op = .error .divByZero ∧
    rv32mRem c7RfZero c7Op = .error .divByZero ∧
    rv32mRemu c7RfZero c7Op = .error .divByZero ∧
    rv32mReg (rv32mDiv c7RfMin c7Op) 3 = some 2147483648 ∧
    rv32mReg (rv32mRem c7RfMin c7Op) 3 = some 0 :=
  ⟨rfl, rfl, rfl, rfl, by decide, by decide⟩

/-- Claim C9: starting from `RegisterFile::new()`, x0 reads 0 after any
sequence of `set` calls, and a `set` targeting x0 changes the value read from
no register (x0..x31). -/
theorem c9_x0_reads_zero_and_x0_writes_dropped :
    (∀ ops : List (Fin 32 × Nat), (RegisterFile.new.applyAll ops).read 0 = 0) ∧
    (∀ (rf : RegisterFile) (v : Nat) (r : Fin 32),
      (rf.set ⟨0, by omega⟩ v).read r.val = rf.read r.val) := by
  constructor
  · intro ops
    rw [regfile_applyAll_read_zero]
    rfl
  · intro rf v r
    have h : regLut ⟨0, by omega⟩ ≠ r.val := by
      have := r.isLt
      simp [regLut]
      omega
    exact getD_set_ne rf.reg _ r.val v 0 h

/-- Claim C8: when the reservation cell differs from `addr >> 6`,
`Mmu::store_conditional` returns Ok(1) with the MMU state — cell and both
caches — unchanged and for any bus whatsoever (so no memory is touched); and
`Mmu::load_reserved` stores `addr >> 6` into the cell, leaves the data cache
(and i-cache) untouched, and returns exactly the bus's `load_word` result,
bypassing the data cache. -/
theorem c8_sc_granule_mismatch_and_lr_bypass :
    (∀ (bus : BusModel) (st : MmuState) (addr val : Nat),
      st.reservation ≠ addrToReservationSet addr →
      mmuStoreConditional bus st addr val = .ok (1, st)) ∧
    (∀ (bus : BusModel) (st : MmuState) (addr : Nat),
      (mmuLoadReserved bus st addr).2.reservation = addrToReservationSet addr ∧
      (mmuLoadReserved bus st addr).2.dCache = st.dCache ∧
      (mmuLoadReserved bus st addr).2.iCache = st.iCache ∧
      (mmuLoadReserved bus st addr).1 = bus.loadWord addr) := by
  constructor
  · intro bus st addr val h
    simp [mmuStoreConditional, h]
  · intro bus st addr
    exact ⟨rfl, rfl, rfl, rfl⟩

/-- Witness for C8 at a concrete input: reservation cell 5, SC at address 64
(reservation set 1 ≠ 5) fails with 1 and an unchanged state. -/
theorem c8_sc_granule_mismatch_and_lr_bypass_witness :
    mmuStoreConditional trivBus (MmuState.new 5) 64 7 = .ok (1, MmuState.new 5) :=
  c8_sc_granule_mismatch_and_lr_bypass.1 trivBus (MmuState.new 5) 64 7 (by decide)

/-- Claim C10: every compare-exchange on a reservation cell — the check on
the store-conditional path and the invalidation on stores — writes only the
sentinel 0xffffffff; a check that passes (returns 0) leaves the checked cell
at the sentinel; and since `addr >> 6` of a u32 address is below 2^26, a cell
holding the sentinel can never satisfy a subsequent `Mmu::store_conditional`
check, which then returns 1 leaving everything unchanged. -/
theorem c10_reservation_cas_writes_only_sentinel :
    (∀ (cells : List Nat) (idx sb j : Nat),
      (helperCheckReservation cells idx sb).2.getD j 0 = cells.getD j 0 ∨
      (helperCheckReservation cells idx sb).2.getD j 0 = reservationSentinel) ∧
    (∀ (cells regs : List Nat) (sb j : Nat),
      (helperInvalidateReservations cells regs sb).getD j 0 = cells.getD j 0 ∨
      (helperInvalidateReservations cells regs sb).getD j 0 = reservationSentinel) ∧
    (∀ (cells : List Nat) (idx sb : Nat), idx < cells.length →
      (helperCheckReservation cells idx sb).1 = 0 →
      (helperCheckReservation cells idx sb).2.getD idx 0 = reservationSentinel) ∧
    (∀ (bus : BusModel) (st : MmuState) (addr val : Nat), addr < U32MOD →
      st.reservation = reservationSentinel →
      mmuStoreConditional bus st addr val = .ok (1, st)) := by
  refine ⟨?_, ?_, ?_, ?_⟩
  · intro cells idx sb j
    unfold helperCheckReservation
    by_cases hc : cells.getD idx 0 = sb
    · rw [if_pos hc]
      exact (by
        by_cases hij : idx = j
        · subst hij
          by_cases hl : idx < cells.length
          · right; exact getD_set_self_lt cells idx _ 0 hl
          · left; rw [List.set_eq_of_length_le (Nat.le_of_not_lt hl)]
        · left; exact getD_set_ne cells idx j _ 0 hij)
    · rw [if_neg hc]; left; rfl
  · intro cells regs sb j
    exact invalidate_pointwise regs cells sb j
  · intro cells idx sb hlen hzero
    unfold helperCheckReservation at hzero ⊢
    by_cases hc : cells.getD idx 0 = sb
    · rw [if_pos hc]
      exact getD_set_self_lt cells idx _ 0 hlen
    · rw [if_neg hc] at hzero
      simp at hzero
  · intro bus st addr val haddr hres
    have hdiv : addr >>> 6 = addr / 2 ^ 6 := Nat.shiftRight_eq_div_pow addr 6
    have hlt : addr / 2 ^ 6 < 2 ^ 26 := by
      apply (Nat.div_lt_iff_lt_mul (by norm_num)).mpr
      have : (2 : Nat) ^ 26 * 2 ^ 6 = U32MOD := by norm_num [U32MOD]
      omega
    have hne : st.reservation ≠ addrToReservationSet addr := by
      rw [hres]
      unfold addrToReservationSet reservationSentinel
      omega
    simp [mmuStoreConditional, hne]

/-- Witness for C10 at concrete inputs: the passing check on a one-cell list
consumes the reservation to the sentinel, and an SC attempted with the cell
already at the sentinel fails with 1 and no state change. -/
theorem c10_reservation_cas_writes_only_sentinel_witness :
    (helperCheckReservation [5] 0 5).2.getD 0 0 = reservationSentinel ∧
    mmuStoreConditional trivBus (MmuState.new reservationSentinel) 64 7 =
      .ok (1, MmuState.new reservationSentinel) :=
  ⟨c10_reservation_cas_writes_only_sentinel.2.2.1 [5] 0 5 (by decide) (by decide),
   c10_reservation_cas_writes_only_sentinel.2.2.2 trivBus
     (MmuState.new reservationSentinel) 64 7 (by decide) (by decide)⟩
